import Mathlib

/-!
# Verification of the chat-relay widget

Shallow embedding of the two components of the repository:

* the relay endpoint (`pages/api/proxy.js`, function `handler`), and
* the client conversation controller (`pages/index.js`, functions
  `getSessionId`, `getUserId`, `submitMessage`, `handleSubmit` and the
  submit control of `AgentComponent`).

JavaScript runtime behaviour is made explicit: `null`/absent values become
`Option`, JSON bodies become a `Json` value type, the truthiness test used
on strings (`s &&`) becomes the test `s ≠ ""`, exceptions become explicit
outcome constructors, and the sequence of `setState` calls performed by a
submission becomes an explicit trace of client states.
-/

namespace ChatRelay

/-- Parsed JSON values, as they appear in request and response bodies. -/
inductive Json where
  | null : Json
  | bool : Bool → Json
  | num : Int → Json
  | str : String → Json
  | arr : List Json → Json
  | obj : List (String × Json) → Json

/-- Field lookup on a JSON object (`body.error`, `body.details`, ...):
the value of the first binding of the key, `none` on non-objects or
missing keys. -/
def Json.field : Json → String → Option Json
  | .obj fields, k => fields.lookup k
  | _, _ => none

/-! ## Relay endpoint (`pages/api/proxy.js`) -/

/-- The three CORS headers set by `handler` before any branching:
`res.setHeader("Access-Control-Allow-Origin", "*")` etc. -/
def corsHeaders : List (String × String) :=
  [("Access-Control-Allow-Origin", "*"),
   ("Access-Control-Allow-Methods", "POST, OPTIONS"),
   ("Access-Control-Allow-Headers", "Content-Type, Authorization")]

/-- What the upstream `fetch` resolved to, when it did not reject:
the HTTP status, the raw body text (as read by `response.text()`), and
the result of `response.json()` — `none` when the body is not valid JSON,
in which case `jsonErrorMessage` is the message of the exception that
`response.json()` throws. -/
structure UpstreamResponse where
  status : Nat
  bodyText : String
  bodyJson : Option Json
  jsonErrorMessage : String

/-- Behaviour of the upstream call made by the relay: either the `fetch`
itself rejects (network failure) with an error message, or it resolves to
a response. -/
inductive UpstreamBehavior where
  | throws (message : String)
  | responds (r : UpstreamResponse)

/-- JavaScript `Response.ok`: the status is in the inclusive range 200–299. -/
def responseOk (status : Nat) : Bool :=
  decide (200 ≤ status) && decide (status ≤ 299)

/-- The request the relay sends upstream:
`fetch(apiUrl, { method: "POST", headers: {...}, body: JSON.stringify(requestBody) })`.
The body is kept as the JSON value being serialized. -/
structure UpstreamRequest where
  url : String
  method : String
  contentType : String
  authorization : String
  body : Json

/-- A response produced by the relay: the headers set on it, the HTTP
status, and the JSON body (`none` for the empty body of `res.end()`). -/
structure RelayResponse where
  headers : List (String × String)
  status : Nat
  body : Option Json

/-- The catch-branch body of `handler`:
`res.status(500).json({ error: "Internal Server Error", details: error.message })`. -/
def internalError (msg : String) : Json :=
  Json.obj [("error", Json.str "Internal Server Error"),
            ("details", Json.str msg)]

/-- The message of the error thrown on a non-ok upstream response:
`` `Zerowidth API error ${response.status}: ${errorText}` ``. -/
def upstreamErrorMessage (status : Nat) (errorText : String) : String :=
  "Zerowidth API error " ++ toString status ++ ": " ++ errorText

/-- The relay handler of `pages/api/proxy.js`, as a function of the request
method, the parsed request body, the configured upstream URL
(`chatConfig.flowURL`), the bearer token (`process.env.ZEROWIDTH_API_KEY`)
and the behaviour of the upstream call.  Returns the response sent to the
caller together with the request forwarded upstream (`none` when no
upstream call is made). -/
def handler (method : String) (reqBody : Json) (apiUrl bearerToken : String)
    (upstream : UpstreamBehavior) : RelayResponse × Option UpstreamRequest :=
  let headers := corsHeaders
  if method = "OPTIONS" then
    ({ headers := headers, status := 200, body := none }, none)
  else if method ≠ "POST" then
    ({ headers := headers, status := 405,
       body := some (Json.obj [("error", Json.str "Method not allowed")]) }, none)
  else
    let sent : UpstreamRequest :=
      { url := apiUrl, method := "POST", contentType := "application/json",
        authorization := "Bearer " ++ bearerToken, body := reqBody }
    match upstream with
    | .throws msg =>
        ({ headers := headers, status := 500,
           body := some (internalError msg) }, some sent)
    | .responds r =>
        if responseOk r.status then
          match r.bodyJson with
          | some data =>
              ({ headers := headers, status := 200, body := some data }, some sent)
          | none =>
              ({ headers := headers, status := 500,
                 body := some (internalError r.jsonErrorMessage) }, some sent)
        else
          ({ headers := headers, status := 500,
             body := some (internalError (upstreamErrorMessage r.status r.bodyText)) },
           some sent)

/-! ## Client identity (`getSessionId` / `getUserId` in `pages/index.js`) -/

/-- `uuidv4().replace(dash, "")`: strip every dash from the generated
uuid string. -/
def stripDashes (u : String) : String :=
  (u.data.filter (fun c => c ≠ '-')).asString

/-- `uuidv4()` with dashes stripped and `.slice(0, 32)` applied: the freshly generated
identifier obtained from a raw uuid string `u`. -/
def idFromUuid (u : String) : String :=
  ((stripDashes u).data.take 32).asString

/-- `getSessionId`, as a function of the value currently in
`sessionStorage` (`none` when `getItem` returns `null`) and the raw uuid
the generator would produce.  Returns the identifier returned to the
caller together with the value written back to storage (`none` when
nothing is stored).  The JS test `sessionId && sessionId.length <= 32`
is truthiness on the string, hence the `v ≠ ""` conjunct. -/
def getSessionId (stored : Option String) (u : String) : String × Option String :=
  let sessionId : Option String :=
    match stored with
    | some v => if v ≠ "" ∧ v.length ≤ 32 then some v else none
    | none => none
  match sessionId with
  | some v => (v, none)
  | none =>
      let fresh := idFromUuid u
      (fresh, some fresh)

/-- `getUserId`, identical logic against `localStorage`. -/
def getUserId (stored : Option String) (u : String) : String × Option String :=
  let userId : Option String :=
    match stored with
    | some v => if v ≠ "" ∧ v.length ≤ 32 then some v else none
    | none => none
  match userId with
  | some v => (v, none)
  | none =>
      let fresh := idFromUuid u
      (fresh, some fresh)

/-! ## Client conversation controller (`pages/index.js`) -/

/-- JavaScript `String.prototype.trim` whitespace, restricted to the
characters relevant here. -/
def jsWhitespace (c : Char) : Bool :=
  c = ' ' || c = '\t' || c = '\n' || c = '\r' || c = '\x0b' || c = '\x0c' || c = ' '

/-- `userInput.trim()`: drop leading and trailing whitespace. -/
def jsTrim (s : String) : String :=
  ((s.data.dropWhile jsWhitespace).reverse.dropWhile jsWhitespace).reverse.asString

/-- A conversation entry: `{ role: "user" | "agent", content: string }`. -/
structure Message where
  role : String
  content : String
  deriving DecidableEq, Repr

/-- The `data` field of the request envelope: `{ message: userMessage }`. -/
structure DataField where
  message : Message
  deriving DecidableEq, Repr

/-- The request envelope built by `submitMessage`:
`{ data: { message }, stateful: true, stream: false, user_id, session_id, verbose: false }`. -/
structure Payload where
  data : DataField
  stateful : Bool
  stream : Bool
  user_id : String
  session_id : String
  verbose : Bool
  deriving DecidableEq, Repr

/-- JSON serialization of a message. -/
def Message.toJson (m : Message) : Json :=
  Json.obj [("role", Json.str m.role), ("content", Json.str m.content)]

/-- `JSON.stringify(payload)`, kept at the level of JSON values. -/
def Payload.toJson (p : Payload) : Json :=
  Json.obj [("data", Json.obj [("message", p.data.message.toJson)]),
            ("stateful", Json.bool p.stateful),
            ("stream", Json.bool p.stream),
            ("user_id", Json.str p.user_id),
            ("session_id", Json.str p.session_id),
            ("verbose", Json.bool p.verbose)]

/-- The part of the relay's 2xx JSON body the client consumes:
`output_data` (`none` when the field is absent or `null`) and inside it
`content` (`none` when absent or `null`). -/
structure OutputData where
  content : Option String
  deriving DecidableEq, Repr

/-- A parsed relay response body, projected to the consumed field. -/
structure RelayJson where
  output_data : Option OutputData
  deriving DecidableEq, Repr

/-- The outcome of the client's `fetch("/api/proxy", ...)`:
either some awaited step throws (network failure, or `res.json()` on an
unparsable body) with an error message, or a response with the given
status and parsed body arrives. -/
inductive FetchOutcome where
  | throws (message : String)
  | responds (status : Nat) (body : RelayJson)

/-- The fixed fallback text used when `output_data.content` is missing
or falsy. -/
def fallbackReply : String := "No valid response received from agent."

/-- `data.output_data && data.output_data.content ? data.output_data.content : fallback`.
An object is truthy; a string is truthy exactly when non-empty. -/
def extractReply (data : RelayJson) : String :=
  match data.output_data with
  | some od =>
      match od.content with
      | some c => if c ≠ "" then c else fallbackReply
      | none => fallbackReply
  | none => fallbackReply

/-- The client state touched by a submission: the input field (`message`),
the conversation history, the error state, the busy flag (`isLoading`)
and the identity pair. -/
structure ClientState where
  message : String
  conversation : List Message
  error : Option String
  isLoading : Bool
  sessionId : String
  userId : String
  deriving DecidableEq, Repr

/-- The message of the error thrown on a non-ok relay response:
`` `Server error: ${res.status}` ``. -/
def serverErrorMessage (status : Nat) : String :=
  "Server error: " ++ toString status

/-- The observable result of one call to `submitMessage`: the chronological
trace of client states (starting with the initial state, one entry per
`setState`), the POST body issued to `/api/proxy` (`none` when no request
is made), and the index in the trace of the state in which the fetch is
dispatched. -/
structure SubmitResult where
  trace : List ClientState
  request : Option Payload
  dispatchIndex : Nat
  deriving DecidableEq, Repr

/-- `submitMessage(userInput)` of `pages/index.js`, as a function of the
current client state, the submitted text and the outcome of the fetch.
Mirrors the source order: the empty-trim guard, `setMessage("")`,
`setError(null)`, append of the user message, payload construction,
`setIsLoading(true)`, the fetch, the non-ok throw, reply extraction and
append of the agent message, `setMessage("")`, and the `finally` clause
`setIsLoading(false)`. -/
def submitMessage (s : ClientState) (userInput : String) (outcome : FetchOutcome) :
    SubmitResult :=
  if jsTrim userInput = "" then
    { trace := [s], request := none, dispatchIndex := 0 }
  else
    let s1 := { s with message := "" }
    let s2 := { s1 with error := none }
    let userMessage : Message := { role := "user", content := jsTrim userInput }
    let s3 := { s2 with conversation := s2.conversation ++ [userMessage] }
    let payload : Payload :=
      { data := { message := userMessage }, stateful := true, stream := false,
        user_id := s.userId, session_id := s.sessionId, verbose := false }
    let s4 := { s3 with isLoading := true }
    match outcome with
    | .throws msg =>
        let s5 := { s4 with error := some msg }
        let s6 := { s5 with isLoading := false }
        { trace := [s, s1, s2, s3, s4, s5, s6], request := some payload,
          dispatchIndex := 4 }
    | .responds status body =>
        if responseOk status then
          let agentMessage : Message := { role := "agent", content := extractReply body }
          let s5 := { s4 with conversation := s4.conversation ++ [agentMessage] }
          let s6 := { s5 with message := "" }
          let s7 := { s6 with isLoading := false }
          { trace := [s, s1, s2, s3, s4, s5, s6, s7], request := some payload,
            dispatchIndex := 4 }
        else
          let s5 := { s4 with error := some (serverErrorMessage status) }
          let s6 := { s5 with isLoading := false }
          { trace := [s, s1, s2, s3, s4, s5, s6], request := some payload,
            dispatchIndex := 4 }

/-- `handleSubmit`: prevent the default form behaviour and submit the
current content of the input field. -/
def handleSubmit (s : ClientState) (outcome : FetchOutcome) : SubmitResult :=
  submitMessage s s.message outcome

/-- The submit control of `AgentComponent`: `disabled={isLoading}`. -/
def submitButtonDisabled (s : ClientState) : Bool :=
  s.isLoading


/-! ## Theorems about the relay endpoint -/

/-- Every branch of `handler` responds with exactly the CORS headers set
at entry. -/
theorem handler_headers_eq (method : String) (reqBody : Json)
    (apiUrl bearerToken : String) (upstream : UpstreamBehavior) :
    (handler method reqBody apiUrl bearerToken upstream).1.headers = corsHeaders := by
  unfold handler
  rcases upstream with msg | r
  · repeat' split
    all_goals rfl
  · repeat' split
    all_goals rfl

/-- The `{error, details}` body built in the catch branch has its `error`
field equal to `"Internal Server Error"` and its `details` field equal to
the error message. -/
theorem internalError_fields (msg : String) :
    (internalError msg).field "error" = some (Json.str "Internal Server Error") ∧
    (internalError msg).field "details" = some (Json.str msg) := by
  simp [internalError, Json.field, List.lookup]

/-- C9: Every response produced by the relay handler — preflight 200,
method-not-allowed 405, success 200, and failure 500 alike — carries all
three CORS headers (`Access-Control-Allow-Origin: *`,
`Access-Control-Allow-Methods: POST, OPTIONS`,
`Access-Control-Allow-Headers: Content-Type, Authorization`), set before
any branching on method or outcome. -/
theorem relay_cors_headers_on_every_response (method : String) (reqBody : Json)
    (apiUrl bearerToken : String) (upstream : UpstreamBehavior) :
    ("Access-Control-Allow-Origin", "*") ∈
        (handler method reqBody apiUrl bearerToken upstream).1.headers ∧
    ("Access-Control-Allow-Methods", "POST, OPTIONS") ∈
        (handler method reqBody apiUrl bearerToken upstream).1.headers ∧
    ("Access-Control-Allow-Headers", "Content-Type, Authorization") ∈
        (handler method reqBody apiUrl bearerToken upstream).1.headers := by
  rw [handler_headers_eq]
  refine ⟨?_, ?_, ?_⟩ <;> simp [corsHeaders]

/-- C1: For every POST request to the relay where the upstream call throws
or the upstream response status is non-2xx, the relay's response has
status 500 and a JSON body whose `error` field equals
`"Internal Server Error"` and whose `details` field is a descriptive
message — for a responding upstream, the message embedding the upstream
status and body text.  The original upstream status is never used as the
relay's response status: the status is 500 in all failure branches. -/
theorem relay_upstream_failure_collapses_to_500 (reqBody : Json)
    (apiUrl bearerToken : String) (upstream : UpstreamBehavior)
    (hfail : (∃ msg, upstream = .throws msg) ∨
             (∃ r, upstream = .responds r ∧ responseOk r.status = false)) :
    (handler "POST" reqBody apiUrl bearerToken upstream).1.status = 500 ∧
    (∀ b, (handler "POST" reqBody apiUrl bearerToken upstream).1.body = some b →
      b.field "error" = some (Json.str "Internal Server Error") ∧
      ∃ d, b.field "details" = some (Json.str d)) ∧
    (∀ msg, upstream = .throws msg →
      (handler "POST" reqBody apiUrl bearerToken upstream).1.body =
        some (internalError msg)) ∧
    (∀ r, upstream = .responds r →
      (handler "POST" reqBody apiUrl bearerToken upstream).1.body =
        some (internalError
          ("Zerowidth API error " ++ toString r.status ++ ": " ++ r.bodyText))) := by
  rcases hfail with ⟨msg, rfl⟩ | ⟨r, rfl, hr⟩
  · refine ⟨by simp [handler], ?_, ?_, ?_⟩
    · intro b hb
      simp [handler] at hb
      subst hb
      exact ⟨(internalError_fields msg).1, msg, (internalError_fields msg).2⟩
    · intro m hm
      cases hm
      simp [handler]
    · intro r hr
      cases hr
  · refine ⟨by simp [handler, hr], ?_, ?_, ?_⟩
    · intro b hb
      simp [handler, hr] at hb
      subst hb
      refine ⟨(internalError_fields _).1, _, (internalError_fields _).2⟩
    · intro m hm
      cases hm
    · intro r2 hr2
      cases hr2
      simp [handler, hr, upstreamErrorMessage]

/-- Witness for C1: a concrete POST with the upstream responding 404 and
body text `"not found"` yields relay status 500 with the
`{error, details}` body embedding the upstream status and body text. -/
theorem relay_upstream_failure_collapses_to_500_witness :
    (handler "POST" Json.null "https://api.example/flow" "tok"
        (.responds { status := 404, bodyText := "not found", bodyJson := none,
                     jsonErrorMessage := "parse" })).1.status = 500 ∧
    (handler "POST" Json.null "https://api.example/flow" "tok"
        (.responds { status := 404, bodyText := "not found", bodyJson := none,
                     jsonErrorMessage := "parse" })).1.body =
      some (internalError "Zerowidth API error 404: not found") := by
  have h := relay_upstream_failure_collapses_to_500 Json.null "https://api.example/flow"
    "tok" (.responds { status := 404, bodyText := "not found", bodyJson := none,
                       jsonErrorMessage := "parse" })
    (Or.inr ⟨_, rfl, by decide⟩)
  exact ⟨h.1, h.2.2.2 _ rfl⟩

/-- C8: For every POST request where the upstream responds with a 2xx
status and a body that parses as JSON, the relay returns that parsed JSON
body unmodified with status 200 — even when the upstream's success status
was not 200. -/
theorem relay_upstream_success_passthrough (reqBody : Json)
    (apiUrl bearerToken : String) (r : UpstreamResponse) (d : Json)
    (hok : responseOk r.status = true) (hjson : r.bodyJson = some d) :
    (handler "POST" reqBody apiUrl bearerToken (.responds r)).1 =
      { headers := corsHeaders, status := 200, body := some d } := by
  simp [handler, hok, hjson]

/-- Witness for C8: an upstream success with the non-200 status 201 is
returned with status 200 and the upstream body unmodified. -/
theorem relay_upstream_success_passthrough_witness :
    (handler "POST" Json.null "u" "t"
        (.responds { status := 201, bodyText := "raw",
                     bodyJson := some (Json.obj [("output_data",
                       Json.obj [("content", Json.str "hello")])]),
                     jsonErrorMessage := "" })).1 =
      { headers := corsHeaders, status := 200,
        body := some (Json.obj [("output_data",
          Json.obj [("content", Json.str "hello")])]) } :=
  relay_upstream_success_passthrough Json.null "u" "t"
    { status := 201, bodyText := "raw",
      bodyJson := some (Json.obj [("output_data",
        Json.obj [("content", Json.str "hello")])]),
      jsonErrorMessage := "" }
    (Json.obj [("output_data", Json.obj [("content", Json.str "hello")])])
    (by decide) rfl

/-! ## Theorems about the client conversation controller -/

/-- The client state after the submission completes: the last entry of
the trace. -/
def SubmitResult.final (r : SubmitResult) : Option ClientState :=
  r.trace.getLast?

/-- A concrete client state used by witnesses and counterexamples. -/
def exampleState : ClientState :=
  { message := "hi", conversation := [], error := none, isLoading := false,
    sessionId := "sess", userId := "usr" }

/-- C2: For every input whose trimmed form is empty, `submitMessage` is a
no-op: the trace contains only the unchanged initial state (so the
conversation history, input field, error and busy flag are all
unmodified) and no request is issued. -/
theorem submit_blank_input_noop (s : ClientState) (userInput : String)
    (outcome : FetchOutcome) (h : jsTrim userInput = "") :
    submitMessage s userInput outcome =
      { trace := [s], request := none, dispatchIndex := 0 } := by
  simp [submitMessage, h]

/-- Witness for C2: submitting the whitespace-only input `"  "` leaves a
concrete state untouched and issues no request. -/
theorem submit_blank_input_noop_witness :
    submitMessage exampleState "  " (.throws "boom") =
      { trace := [exampleState], request := none, dispatchIndex := 0 } :=
  submit_blank_input_noop exampleState "  " (.throws "boom") (by decide)

/-- The freshly generated identifier is at most 32 characters long. -/
theorem idFromUuid_length_le (u : String) : (idFromUuid u).length ≤ 32 := by
  have h : (idFromUuid u).length = ((stripDashes u).data.take 32).length := rfl
  rw [h, List.length_take]
  exact min_le_left _ _

/-- C7 (amended): a stored identity value that is missing, empty, or
longer than 32 characters is treated as invalid and replaced by a freshly
generated value of length at most 32, which is stored back; a non-empty
stored value of length at most 32 is returned unchanged with nothing
written to storage.  (The JS truthiness test `stored &&` makes the empty
string invalid as well, although its length is at most 32.) -/
theorem identity_read_or_create (stored : Option String) (u : String) :
    (∀ v, stored = some v → v ≠ "" → v.length ≤ 32 →
      getSessionId stored u = (v, none) ∧ getUserId stored u = (v, none)) ∧
    ((stored = none ∨ stored = some "" ∨ (∃ v, stored = some v ∧ 32 < v.length)) →
      getSessionId stored u = (idFromUuid u, some (idFromUuid u)) ∧
      getUserId stored u = (idFromUuid u, some (idFromUuid u)) ∧
      (idFromUuid u).length ≤ 32) := by
  constructor
  · rintro v rfl hne hle
    constructor <;> simp [getSessionId, getUserId, hne, hle]
  · rintro (rfl | rfl | ⟨v, rfl, hgt⟩)
    · exact ⟨rfl, rfl, idFromUuid_length_le u⟩
    · refine ⟨?_, ?_, idFromUuid_length_le u⟩ <;> simp [getSessionId, getUserId]
    · have hv : ¬(v ≠ "" ∧ v.length ≤ 32) := fun hc => absurd hc.2 (by omega)
      refine ⟨?_, ?_, idFromUuid_length_le u⟩ <;> simp [getSessionId, getUserId, hv]

/-- Witness for C7 (amended): a stored session value of length exactly 33
is replaced by the freshly generated 32-character value, which is stored
back. -/
theorem identity_read_or_create_witness :
    getSessionId (some "aaaaaaaaaaaaaaaaaaaaaaaaaaaaaaaaa")
        "0123456789abcdef0123456789abcdef" =
      ("0123456789abcdef0123456789abcdef",
       some "0123456789abcdef0123456789abcdef") ∧
    ("0123456789abcdef0123456789abcdef" : String).length ≤ 32 ∧
    ("aaaaaaaaaaaaaaaaaaaaaaaaaaaaaaaaa" : String).length = 33 := by
  have h := (identity_read_or_create (some "aaaaaaaaaaaaaaaaaaaaaaaaaaaaaaaaa")
      "0123456789abcdef0123456789abcdef").2
    (Or.inr (Or.inr ⟨"aaaaaaaaaaaaaaaaaaaaaaaaaaaaaaaaa", rfl, by decide⟩))
  have hu : idFromUuid "0123456789abcdef0123456789abcdef" =
      "0123456789abcdef0123456789abcdef" := by decide
  rw [hu] at h
  exact ⟨h.1, h.2.2, by decide⟩

/-- Counterexample for C7 as stated: the stored value `""` has length at
most 32, yet it is not returned unchanged — the read regenerates and
stores a fresh identifier. -/
theorem identity_short_value_replaced_counterexample :
    ("" : String).length ≤ 32 ∧
    getSessionId (some "") "0123456789abcdef0123456789abcdef" =
      ("0123456789abcdef0123456789abcdef",
       some "0123456789abcdef0123456789abcdef") ∧
    ("0123456789abcdef0123456789abcdef" : String) ≠ "" := by
  exact ⟨by decide, by decide, by decide⟩

/-- C3 (amended): on a 2xx relay response the client appends exactly one
agent message after the user message; for every non-empty string `X`, a
body with `output_data.content = X` yields an agent message with content
`X`; a body lacking `output_data` or `content`, or whose `content` is the
empty string (falsy in JS), yields the fixed fallback text instead. -/
theorem submit_success_appends_reply (s : ClientState) (userInput : String)
    (status : Nat) (body : RelayJson)
    (hin : jsTrim userInput ≠ "") (hok : responseOk status = true) :
    (∃ t, (submitMessage s userInput (.responds status body)).final = some t ∧
      t.conversation = s.conversation ++
        [{ role := "user", content := jsTrim userInput },
         { role := "agent", content := extractReply body }]) ∧
    (∀ X : String, X ≠ "" → body.output_data = some { content := some X } →
      extractReply body = X) ∧
    ((body.output_data = none ∨ body.output_data = some { content := none } ∨
        body.output_data = some { content := some "" }) →
      extractReply body = fallbackReply) := by
  refine ⟨?_, ?_, ?_⟩
  · simp [submitMessage, SubmitResult.final, hin, hok]
  · intro X hX hbody
    simp [extractReply, hbody, hX]
  · rintro (h | h | h) <;> simp [extractReply, h]

/-- Witness for C3 (amended): a concrete 2xx response with content
`"hello there"` appends the user message and one agent message carrying
that content. -/
theorem submit_success_appends_reply_witness :
    (∃ t, (submitMessage exampleState "hello" (.responds 200
        { output_data := some { content := some "hello there" } })).final = some t ∧
      t.conversation = exampleState.conversation ++
        [{ role := "user", content := jsTrim "hello" },
         { role := "agent", content := extractReply
            { output_data := some { content := some "hello there" } } }]) ∧
    (∀ X : String, X ≠ "" →
      ({ output_data := some { content := some "hello there" } } : RelayJson).output_data =
        some { content := some X } →
      extractReply { output_data := some { content := some "hello there" } } = X) ∧
    ((({ output_data := some { content := some "hello there" } } : RelayJson).output_data = none ∨
        ({ output_data := some { content := some "hello there" } } : RelayJson).output_data =
          some { content := none } ∨
        ({ output_data := some { content := some "hello there" } } : RelayJson).output_data =
          some { content := some "" }) →
      extractReply { output_data := some { content := some "hello there" } } = fallbackReply) :=
  submit_success_appends_reply exampleState "hello" 200
    { output_data := some { content := some "hello there" } } (by decide) (by decide)

/-- Counterexample for C3 as stated: a 2xx body carrying
`output_data.content = ""` does not make the client append an agent
message with content `""` — the appended agent message carries the
(non-empty) fallback text. -/
theorem submit_empty_content_counterexample :
    (submitMessage exampleState "hi" (.responds 200
        { output_data := some { content := some "" } })).final =
      some { message := "", conversation :=
               [{ role := "user", content := "hi" },
                { role := "agent", content := fallbackReply }],
             error := none, isLoading := false,
             sessionId := "sess", userId := "usr" } ∧
    fallbackReply ≠ "" := by
  exact ⟨by decide, by decide⟩

/-- C4: on a non-2xx relay response, the turn leaves only the user's
message in the history (no agent message is appended) and sets the error
state to the non-empty string `"Server error: <status>"`, which contains
the returned status code. -/
theorem submit_relay_error_sets_error (s : ClientState) (userInput : String)
    (status : Nat) (body : RelayJson)
    (hin : jsTrim userInput ≠ "") (hbad : responseOk status = false) :
    ∃ t, (submitMessage s userInput (.responds status body)).final = some t ∧
      t.conversation = s.conversation ++
        [{ role := "user", content := jsTrim userInput }] ∧
      t.error = some (serverErrorMessage status) ∧
      serverErrorMessage status ≠ "" ∧
      ∃ pre post, serverErrorMessage status = pre ++ toString status ++ post := by
  have hfin : (submitMessage s userInput (.responds status body)).final =
      some { message := "",
             conversation := s.conversation ++
               [{ role := "user", content := jsTrim userInput }],
             error := some (serverErrorMessage status), isLoading := false,
             sessionId := s.sessionId, userId := s.userId } := by
    simp [submitMessage, SubmitResult.final, hin, hbad]
  refine ⟨_, hfin, rfl, rfl, ?_, "Server error: ", "", ?_⟩
  · intro hcontra
    have hlen := congrArg String.length hcontra
    rw [serverErrorMessage, String.length_append] at hlen
    have h14 : ("Server error: " : String).length = 14 := rfl
    have h0 : ("" : String).length = 0 := rfl
    omega
  · simp [serverErrorMessage]

/-- Witness for C4: a concrete 503 relay response leaves only the user's
message in the history and sets the error string `"Server error: 503"`. -/
theorem submit_relay_error_sets_error_witness :
    ∃ t, (submitMessage exampleState "hello" (.responds 503
        { output_data := none })).final = some t ∧
      t.conversation = exampleState.conversation ++
        [{ role := "user", content := jsTrim "hello" }] ∧
      t.error = some (serverErrorMessage 503) ∧
      serverErrorMessage 503 ≠ "" ∧
      ∃ pre post, serverErrorMessage 503 = pre ++ toString 503 ++ post :=
  submit_relay_error_sets_error exampleState "hello" 503 { output_data := none }
    (by decide) (by decide)

/-- The request `handler` builds for the upstream call on a POST. -/
def forwardedRequest (reqBody : Json) (apiUrl bearerToken : String) : UpstreamRequest :=
  { url := apiUrl, method := "POST", contentType := "application/json",
    authorization := "Bearer " ++ bearerToken, body := reqBody }

/-- C6: for every non-empty trimmed input, the body of the POST issued by
`submitMessage` is exactly the request envelope
`{ data := { message := userMessage }, stateful := true, stream := false,
user_id := userId, session_id := sessionId, verbose := false }`, and the
relay forwards any JSON body it receives on a POST to the configured
upstream URL without alteration. -/
theorem submit_request_envelope (s : ClientState) (userInput : String)
    (outcome : FetchOutcome) (hin : jsTrim userInput ≠ "") :
    (submitMessage s userInput outcome).request = some
      { data := { message := { role := "user", content := jsTrim userInput } },
        stateful := true, stream := false, user_id := s.userId,
        session_id := s.sessionId, verbose := false } ∧
    (∀ (p : Payload) (apiUrl bearerToken : String) (upstream : UpstreamBehavior),
      ∃ sent, (handler "POST" (Payload.toJson p) apiUrl bearerToken upstream).2 =
          some sent ∧
        sent.body = Payload.toJson p ∧ sent.url = apiUrl) := by
  constructor
  · rcases outcome with msg | ⟨status, body⟩
    · simp [submitMessage, hin]
    · by_cases hok : responseOk status = true
      · simp [submitMessage, hin, hok]
      · simp [submitMessage, hin, hok]
  · intro p apiUrl bearerToken upstream
    rcases upstream with m | r
    · exact ⟨_, rfl, rfl, rfl⟩
    · by_cases hok : responseOk r.status = true
      · rcases hj : r.bodyJson with _ | d
        · refine ⟨forwardedRequest (Payload.toJson p) apiUrl bearerToken, ?_, rfl, rfl⟩
          simp [handler, forwardedRequest, hok, hj]
        · refine ⟨forwardedRequest (Payload.toJson p) apiUrl bearerToken, ?_, rfl, rfl⟩
          simp [handler, forwardedRequest, hok, hj]
      · refine ⟨forwardedRequest (Payload.toJson p) apiUrl bearerToken, ?_, rfl, rfl⟩
        simp [handler, forwardedRequest, hok]

/-- Witness for C6: a concrete submission issues exactly the envelope
with the trimmed message and the state's identifiers, and a concrete POST
through the relay forwards that body unmodified. -/
theorem submit_request_envelope_witness :
    (submitMessage exampleState "hello" (.throws "x")).request = some
      { data := { message := { role := "user", content := jsTrim "hello" } },
        stateful := true, stream := false, user_id := exampleState.userId,
        session_id := exampleState.sessionId, verbose := false } ∧
    (∀ (p : Payload) (apiUrl bearerToken : String) (upstream : UpstreamBehavior),
      ∃ sent, (handler "POST" (Payload.toJson p) apiUrl bearerToken upstream).2 =
          some sent ∧
        sent.body = Payload.toJson p ∧ sent.url = apiUrl) :=
  submit_request_envelope exampleState "hello" (.throws "x") (by decide)

/-- C10: for every non-empty trimmed input, the user message recorded by
the submission — both the one appended to the conversation and the one
placed in the request envelope — has content equal to the trimmed input
(leading and trailing whitespace stripped). -/
theorem submit_appends_trimmed_input (s : ClientState) (userInput : String)
    (outcome : FetchOutcome) (hin : jsTrim userInput ≠ "") :
    (∀ p, (submitMessage s userInput outcome).request = some p →
      p.data.message = { role := "user", content := jsTrim userInput }) ∧
    (∃ t rest, (submitMessage s userInput outcome).final = some t ∧
      t.conversation = s.conversation ++
        ({ role := "user", content := jsTrim userInput } :: rest)) := by
  constructor
  · intro p hp
    rcases outcome with msg | ⟨status, body⟩
    · simp [submitMessage, hin] at hp
      exact hp ▸ rfl
    · by_cases hok : responseOk status = true
      · simp [submitMessage, hin, hok] at hp
        exact hp ▸ rfl
      · simp [submitMessage, hin, hok] at hp
        exact hp ▸ rfl
  · rcases outcome with msg | ⟨status, body⟩
    · have hfin : (submitMessage s userInput (.throws msg)).final = some
          { message := "",
            conversation := s.conversation ++
              [{ role := "user", content := jsTrim userInput }],
            error := some msg, isLoading := false,
            sessionId := s.sessionId, userId := s.userId } := by
        simp [submitMessage, SubmitResult.final, hin]
      exact ⟨_, [], hfin, rfl⟩
    · by_cases hok : responseOk status = true
      · have hfin : (submitMessage s userInput (.responds status body)).final = some
            { message := "",
              conversation := s.conversation ++
                [{ role := "user", content := jsTrim userInput },
                 { role := "agent", content := extractReply body }],
              error := none, isLoading := false,
              sessionId := s.sessionId, userId := s.userId } := by
          simp [submitMessage, SubmitResult.final, hin, hok]
        exact ⟨_, [{ role := "agent", content := extractReply body }], hfin, rfl⟩
      · have hfin : (submitMessage s userInput (.responds status body)).final = some
            { message := "",
              conversation := s.conversation ++
                [{ role := "user", content := jsTrim userInput }],
              error := some (serverErrorMessage status), isLoading := false,
              sessionId := s.sessionId, userId := s.userId } := by
          simp [submitMessage, SubmitResult.final, hin, hok]
        exact ⟨_, [], hfin, rfl⟩

/-- Witness for C10: submitting `" hi "` records the trimmed content
`"hi"` in both the conversation and the envelope. -/
theorem submit_appends_trimmed_input_witness :
    jsTrim " hi " = "hi" ∧
    ((∀ p, (submitMessage exampleState " hi " (.throws "x")).request = some p →
      p.data.message = { role := "user", content := jsTrim " hi " }) ∧
    (∃ t rest, (submitMessage exampleState " hi " (.throws "x")).final = some t ∧
      t.conversation = exampleState.conversation ++
        ({ role := "user", content := jsTrim " hi " } :: rest))) :=
  ⟨by decide,
   submit_appends_trimmed_input exampleState " hi " (.throws "x") (by decide)⟩

/-- C5: in every dispatching submission turn started from an idle state,
the fetch is dispatched at trace index 4 (the state in which the busy
flag has just been set), the busy flag is true at exactly the trace
positions from dispatch up to (but excluding) the final cleanup state, the
final state of every exit path (success or failure) has the flag cleared,
and the submit control is enabled exactly when the flag is false. -/
theorem submit_busy_flag_lifecycle (s : ClientState) (userInput : String)
    (outcome : FetchOutcome) (hidle : s.isLoading = false)
    (hin : jsTrim userInput ≠ "") :
    (submitMessage s userInput outcome).dispatchIndex = 4 ∧
    (∀ i t, (submitMessage s userInput outcome).trace[i]? = some t →
      (t.isLoading = true ↔
        ((submitMessage s userInput outcome).dispatchIndex ≤ i ∧
         i + 1 < (submitMessage s userInput outcome).trace.length))) ∧
    (∃ t, (submitMessage s userInput outcome).final = some t ∧
      t.isLoading = false) ∧
    (∀ t : ClientState, submitButtonDisabled t = false ↔ t.isLoading = false) := by
  rcases outcome with msg | ⟨status, body⟩
  · refine ⟨by simp [submitMessage, hin], ?_, ?_, ?_⟩
    · intro i t h
      simp [submitMessage, hin] at h ⊢
      rcases i with _|_|_|_|_|_|_|i <;> simp_all [hidle] <;> (subst h; rfl)
    · simp [submitMessage, SubmitResult.final, hin, hidle]
    · intro t
      simp [submitButtonDisabled]
  · by_cases hok : responseOk status = true
    · refine ⟨by simp [submitMessage, hin, hok], ?_, ?_, ?_⟩
      · intro i t h
        simp [submitMessage, hin, hok] at h ⊢
        rcases i with _|_|_|_|_|_|_|_|i <;> simp_all [hidle] <;> (subst h; rfl)
      · simp [submitMessage, SubmitResult.final, hin, hok, hidle]
      · intro t
        simp [submitButtonDisabled]
    · refine ⟨by simp [submitMessage, hin, hok], ?_, ?_, ?_⟩
      · intro i t h
        simp [submitMessage, hin, hok] at h ⊢
        rcases i with _|_|_|_|_|_|_|i <;> simp_all [hidle] <;> (subst h; rfl)
      · simp [submitMessage, SubmitResult.final, hin, hok, hidle]
      · intro t
        simp [submitButtonDisabled]

/-- Witness for C5: a concrete failing turn from an idle state dispatches
at index 4, has the busy flag true exactly strictly between dispatch and
the final cleanup, and ends with the flag cleared. -/
theorem submit_busy_flag_lifecycle_witness :
    (submitMessage exampleState "hello" (.throws "x")).dispatchIndex = 4 ∧
    (∀ i t, (submitMessage exampleState "hello" (.throws "x")).trace[i]? = some t →
      (t.isLoading = true ↔
        ((submitMessage exampleState "hello" (.throws "x")).dispatchIndex ≤ i ∧
         i + 1 < (submitMessage exampleState "hello" (.throws "x")).trace.length))) ∧
    (∃ t, (submitMessage exampleState "hello" (.throws "x")).final = some t ∧
      t.isLoading = false) ∧
    (∀ t : ClientState, submitButtonDisabled t = false ↔ t.isLoading = false) :=
  submit_busy_flag_lifecycle exampleState "hello" (.throws "x") rfl (by decide)

end ChatRelay
